import Mathlib

/-!
Shallow embedding of the `zarrs_tools` fork sources:
  * `src/filter/filters/equal.rs` — the "equal" elementwise filter
    (`Equal::is_compatible`, `Equal::memory_per_chunk`, `Equal::apply_elements`,
    `Equal::apply`);
  * `src/bin/zarrs_benchmark_read_async.rs` — the asynchronous read-throughput
    benchmark (outer-concurrency recommendation and the per-chunk accumulation
    loop).

External collaborators (the `zarrs` storage/codec engine, `rayon`, the
filesystem store) are modelled at their interfaces: retrieval, storage and
fill-value parsing are abstract functions supplied in an environment record,
while the control flow that lives in this repository's source is translated
statement by statement.  Rust panics (`assert_eq!`, `unwrap`, `panic!`,
division by zero) are modelled as a distinct `Outcome.panic` constructor
carrying the panic site, so that "returns an error" and "aborts" stay
distinguishable.
-/

namespace ZarrsTools

/-- The `zarrs` element data-type tags (the closed enumeration the filter
dispatches over).  Besides the thirteen tags the "equal" filter supports, the
enumeration has the complex and raw-bits tags, which the filter's catch-all
match arms reject. -/
inductive DataType : Type
  | bool
  | int8
  | int16
  | int32
  | int64
  | uint8
  | uint16
  | uint32
  | uint64
  | float16
  | float32
  | float64
  | bfloat16
  | complex64
  | complex128
  | rawBits (byteSize : Nat)
deriving DecidableEq, Repr

/-- Display name of a data type tag (mirrors `DataType::to_string` closely
enough to fill `UnsupportedDataTypeError::from(String)`). -/
def DataType.name : DataType → String
  | .bool => "bool"
  | .int8 => "int8"
  | .int16 => "int16"
  | .int32 => "int32"
  | .int64 => "int64"
  | .uint8 => "uint8"
  | .uint16 => "uint16"
  | .uint32 => "uint32"
  | .uint64 => "uint64"
  | .float16 => "float16"
  | .float32 => "float32"
  | .float64 => "float64"
  | .bfloat16 => "bfloat16"
  | .complex64 => "complex64"
  | .complex128 => "complex128"
  | .rawBits n => "r" ++ toString (8 * n)

/-- Fixed byte size of one element of each data type (zarrs
`DataType::fixed_size`). -/
def DataType.size : DataType → Nat
  | .bool => 1
  | .int8 => 1
  | .int16 => 2
  | .int32 => 4
  | .int64 => 8
  | .uint8 => 1
  | .uint16 => 2
  | .uint32 => 4
  | .uint64 => 8
  | .float16 => 2
  | .float32 => 4
  | .float64 => 8
  | .bfloat16 => 2
  | .complex64 => 8
  | .complex128 => 16
  | .rawBits n => n

/-- Modelled from the spec: the error taxonomy of §7.  The repository's
`FilterError` type lives in `src/filter/filter_error.rs`, which is not among
the provided sources; only its constructors named by the spec are modelled.
`unsupportedElementType` carries the offending data type's display name, as
`UnsupportedDataTypeError::from(String)` does. -/
inductive FilterError : Type
  | unsupportedElementType (dataTypeName : String)
  | incompatibleShape (message : String)
  | retrievalFailure (message : String)
  | storageFailure (message : String)
  | concurrencyConfigError (message : String)
deriving DecidableEq, Repr

/-- `zarrs::array::ChunkRepresentation`: element type tag plus chunk shape,
used only to estimate per-chunk memory cost. -/
structure ChunkRepresentation : Type where
  shape : List Nat
  dataType : DataType
deriving DecidableEq, Repr

/-- `ChunkRepresentation::size_usize`: element count times element byte
width. -/
def ChunkRepresentation.size_usize (c : ChunkRepresentation) : Nat :=
  c.shape.prod * c.dataType.size

/-- The input-side arms of the filter's type dispatch: the thirteen data-type
tags matched by `Equal::is_compatible`'s first `match` (equal.rs lines 85-102)
and by the `apply_input!` macro arm list (equal.rs lines 186-200).  Every
other tag falls into the catch-all arm. -/
def supportedInputTag : DataType → Bool
  | .bool | .int8 | .int16 | .int32 | .int64
  | .uint8 | .uint16 | .uint32 | .uint64
  | .float16 | .float32 | .float64 | .bfloat16 => true
  | _ => false

/-- The output-side arms of the filter's type dispatch: the two tags matched
by `Equal::is_compatible`'s second `match` (equal.rs lines 103-108) and by the
`apply_output!` arm list (equal.rs lines 207-210). -/
def supportedOutputTag : DataType → Bool
  | .bool | .uint8 => true
  | _ => false

/-- Fill-value metadata as parsed from the command line; opaque to the filter
(it is only handed to the external `fill_value_from_metadata`). -/
def FillValueMetadata : Type := String

/-- The `Equal` filter record (equal.rs lines 51-54): the comparison value's
metadata and an optional explicit chunk limit. -/
structure Equal : Type where
  value : FillValueMetadata
  chunk_limit : Option Nat

/-- `Equal::is_compatible` (equal.rs lines 80-110): check the input tag
against the thirteen supported arms, erroring on the catch-all with the tag's
display name; then likewise check the output tag against `Bool | UInt8`.
The check is a pure function of the two type tags: no data is touched. -/
def Equal.is_compatible (_self : Equal)
    (chunk_input chunk_output : ChunkRepresentation) : Except FilterError Unit :=
  if supportedInputTag chunk_input.dataType then
    if supportedOutputTag chunk_output.dataType then
      .ok ()
    else
      .error (.unsupportedElementType chunk_output.dataType.name)
  else
    .error (.unsupportedElementType chunk_input.dataType.name)

/-- `Equal::memory_per_chunk` (equal.rs lines 112-118): input chunk byte size
plus output chunk byte size. -/
def Equal.memory_per_chunk (_self : Equal)
    (chunk_input chunk_output : ChunkRepresentation) : Nat :=
  chunk_input.size_usize + chunk_output.size_usize

/-!  ## Element values and native equality

The Rust transform is generic over the input element type `TIn` and compares
with `TIn`'s own `PartialEq`.  Machine integers (and `bool`, retrieved as
`u8`) compare by value; the four float types compare with IEEE 754 equality.
`Fp` models an IEEE float symbolically: either NaN, or a signed magnitude, so
that `+0.0` (`num false 0`) and `-0.0` (`num true 0`) are distinct values that
nevertheless compare equal, and NaN compares unequal to everything including
itself. -/

/-- Symbolic IEEE 754 value: NaN or a sign/magnitude pair. -/
inductive Fp : Type
  | nan
  | num (sign : Bool) (mag : Rat)
deriving DecidableEq, Repr

/-- IEEE 754 equality on `Fp`: NaN equals nothing (itself included); two
numbers are equal when both are zero (either sign) or when sign and magnitude
coincide. -/
def fpEq : Fp → Fp → Bool
  | .nan, _ => false
  | _, .nan => false
  | .num s1 m1, .num s2 m2 => (m1 == 0 && m2 == 0) || (s1 == s2 && m1 == m2)

/-- Universal element value: every supported input element is a machine
integer (by value) or an IEEE float. -/
inductive Val : Type
  | int (i : Int)
  | fp (x : Fp)
deriving DecidableEq, Repr

/-- Native equality on `Val`: the dispatched `PartialEq` of the selected
monomorphic input type — integer equality on the integer tags, IEEE equality
on the float tags. -/
def valEq : Val → Val → Bool
  | .int a, .int b => a == b
  | .fp a, .fp b => fpEq a b
  | _, _ => false

/-- Rust's `bool as u8` numeric cast (`bool: AsPrimitive<TOut>` with `u8`
target, the only `TOut` the dispatch instantiates): `true ↦ 1`, `false ↦ 0`. -/
def boolAsU8 (b : Bool) : Nat :=
  if b then 1 else 0

/-- `Equal::apply_elements` (equal.rs lines 61-76): map each input element to
`(element == equal).as_()`.  The Rust function is generic over `TIn`'s
`PartialEq` and `bool`'s cast into `TOut`; both dictionaries are explicit
parameters here.  The parallel iterator collects in input order, so the
result is the order-preserving map; the function has no error path. -/
def Equal.apply_elements {TIn TOut : Type} (_self : Equal)
    (eq : TIn → TIn → Bool) (boolAs : Bool → TOut)
    (input_elements : List TIn) (equal : TIn) : Except FilterError (List TOut) :=
  .ok (input_elements.map (fun value => boolAs (eq value equal)))

/-!  ## The `Equal::apply` orchestration (equal.rs lines 124-213)

The array handle, store and codec live in the external `zarrs` crate, so they
enter the model as abstract functions: per-array retrieval/storage over a
sub-region, the chunk-subset computation, the chunk representation query, and
the data-type-directed fill-value parse.  The control flow — the shape
assertion, chunk enumeration, the single fill-value conversion and its
`unwrap`, chunk-limit resolution, the uniform-block partition handed to
rayon, and the per-chunk read → dispatch → transform → write pipeline with
its catch-all `panic!()` arms — is translated from the source. -/

/-- The Rust panic sites reachable from `Equal::apply`. -/
inductive PanicSite : Type
  | assertShape
  | fillValueUnwrap
  | chunkLimitDivZero
  | subsetUnwrap
  | neBytesUnwrap
  | dispatchUnmatched
deriving DecidableEq, Repr

/-- Result of running a fallible Rust computation that may also abort:
normal return, `Err` propagation, or a panic at a known site. -/
inductive Outcome (α : Type) : Type
  | ok (a : α)
  | error (e : FilterError)
  | panic (site : PanicSite)
deriving DecidableEq, Repr

/-- Whether an outcome is an `Err` return (as opposed to success or a
panic). -/
def Outcome.isError {α : Type} : Outcome α → Bool
  | .error _ => true
  | _ => false

/-- A hyper-rectangular sub-region: one inclusive-exclusive range per axis. -/
def SubRegion : Type := List (Nat × Nat)

/-- Row-major enumeration of all multi-indices of a grid shape
(`ArraySubset::new_with_shape(shape).indices()`): the first axis varies
slowest. -/
def gridIndices : List Nat → List (List Nat)
  | [] => [[]]
  | n :: rest => (List.range n).flatMap (fun i => (gridIndices rest).map (fun t => i :: t))

/-- Rust's `usize::div_ceil` for a positive divisor; the caller must rule out
a zero divisor separately (in Rust it panics). -/
def divCeil (a b : Nat) : Nat :=
  (a + b - 1) / b

/-- Rayon's `by_uniform_blocks(block_size)` splitting: consecutive blocks of
`block_size` items in order (`ceil(len / block_size)` blocks, the `i`-th
holding the items from position `i * block_size`, the last block possibly
shorter).  Rayon then runs the blocks one after another, parallelising inside
each block.  The `0` case is unreachable from `apply`, which always passes
`.max(1)`. -/
def byUniformBlocks {α : Type} (blockSize : Nat) (xs : List α) : List (List α) :=
  if blockSize = 0 then (if xs.isEmpty then [] else [xs])
  else
    (List.range (divCeil xs.length blockSize)).map
      (fun i => ((xs.drop (i * blockSize)).take blockSize))

/-- Model of one array handle (`Array<FilesystemStore>`), exposing exactly
the operations `Equal::apply` uses.  Data movement is abstract: `retrieve`
yields the sub-region's elements as universal values typed per the array's
tag, `store` accepts the produced bytes. -/
structure ArrayModel : Type where
  shape : List Nat
  chunkGridShape : List Nat
  dataType : DataType
  chunkRepr : List Nat → ChunkRepresentation
  chunkSubsetBounded : List Nat → Option SubRegion
  retrieve : SubRegion → Except FilterError (List Val)
  store : SubRegion → List Nat → Except FilterError Unit

/-- `Array::dimensionality`. -/
def ArrayModel.dimensionality (a : ArrayModel) : Nat :=
  a.shape.length

/-- Environment of external `zarrs` services that are not per-array:
`DataType::fill_value_from_metadata` (returning the fill value's native
bytes), the byte decoding used by `from_ne_bytes`, and the system-wide
default memory budget consulted by the chunk-limit planner. -/
structure Env : Type where
  fillValueFromMetadata : DataType → FillValueMetadata → Option (List Nat)
  decode : DataType → List Nat → Val
  budget : Nat

/-- Modelled from the spec: `calculate_chunk_limit` lives in
`src/filter/mod.rs`, which is not among the provided sources.  Per §4.2 the
planner divides the memory budget by the per-unit cost and falls back to one
unit per block when a single unit exceeds the budget, never signalling an
error for that reason. -/
def calculate_chunk_limit (memory_budget memory_per_unit : Nat) :
    Except FilterError Nat :=
  .ok (max 1 (memory_budget / memory_per_unit))

/-- Chunk-limit resolution inside `Equal::apply` (equal.rs lines 140-147):
the explicit override when present, otherwise the planner applied to
`memory_per_chunk` of the representative chunk at index `(0, …, 0)` (the
all-zero index is built with the input's dimensionality for both arrays). -/
def Equal.resolveChunkLimit (self : Equal) (env : Env)
    (input output : ArrayModel) : Except FilterError Nat :=
  match self.chunk_limit with
  | some chunk_limit => .ok chunk_limit
  | none =>
    calculate_chunk_limit env.budget
      (self.memory_per_chunk
        (input.chunkRepr (List.replicate input.dimensionality 0))
        (output.chunkRepr (List.replicate input.dimensionality 0)))

/-- The body run for one chunk index (equal.rs lines 154-211): compute the
bounded chunk subset (`unwrap`), dispatch on the output tag (`apply_output!`,
arms `Bool | UInt8`, catch-all `panic!()`) and then the input tag
(`apply_input!`, thirteen arms, catch-all `panic!()`); in the selected arm,
retrieve the input elements, reinterpret the fill value's bytes as the input
type (`from_ne_bytes` on a `try_into().unwrap()`, which aborts on a byte-size
mismatch), apply the elementwise transform, and store the result. -/
def Equal.processChunk (self : Equal) (env : Env) (input output : ArrayModel)
    (value : List Nat) (chunk_indices : List Nat) : Outcome Unit :=
  match output.chunkSubsetBounded chunk_indices with
  | none => .panic .subsetUnwrap
  | some input_output_subset =>
    if supportedOutputTag output.dataType then
      if supportedInputTag input.dataType then
        match input.retrieve input_output_subset with
        | .error e => .error e
        | .ok input_elements =>
          if value.length = input.dataType.size then
            let equal := env.decode input.dataType value
            match self.apply_elements valEq boolAsU8 input_elements equal with
            | .error e => .error e
            | .ok output_elements =>
              match output.store input_output_subset output_elements with
              | .error e => .error e
              | .ok _ => .ok ()
          else .panic .neBytesUnwrap
      else .panic .dispatchUnmatched
    else .panic .dispatchUnmatched

/-- Run the chunk bodies of one uniform block, stopping at the first error or
panic (`try_for_each` where a failing task aborts the batch). -/
def runChunkList (f : List Nat → Outcome Unit) : List (List Nat) → Outcome Unit
  | [] => .ok ()
  | c :: cs =>
    match f c with
    | .ok _ => runChunkList f cs
    | .error e => .error e
    | .panic s => .panic s

/-- Run the uniform blocks one after another (rayon processes the blocks of
`by_uniform_blocks` sequentially), stopping at the first error or panic. -/
def runBlocks (f : List Nat → Outcome Unit) : List (List (List Nat)) → Outcome Unit
  | [] => .ok ()
  | b :: bs =>
    match runChunkList f b with
    | .ok _ => runBlocks f bs
    | .error e => .error e
    | .panic s => .panic s

/-- The uniform-block partition `Equal::apply` hands to rayon (equal.rs lines
149-152): `indices.into_par_iter().by_uniform_blocks(indices.len()
.div_ceil(chunk_limit).max(1))` — the argument is rayon's block **size**. -/
def applyPartition (chunkGridShape : List Nat) (chunk_limit : Nat) :
    List (List (List Nat)) :=
  byUniformBlocks (max (divCeil (gridIndices chunkGridShape).length chunk_limit) 1)
    (gridIndices chunkGridShape)

/-- `Equal::apply` (equal.rs lines 124-213): assert the shapes match
(`assert_eq!`, panicking on mismatch); enumerate the chunk grid; convert the
configured comparison value once via `fill_value_from_metadata(...).unwrap()`
(panicking when the metadata is not representable in the input's data type);
resolve the chunk limit; partition the chunk indices into uniform blocks; and
run the per-chunk pipeline over the blocks. -/
def Equal.apply (self : Equal) (env : Env) (input output : ArrayModel) :
    Outcome Unit :=
  if output.shape = input.shape then
    match env.fillValueFromMetadata input.dataType self.value with
    | none => .panic .fillValueUnwrap
    | some value =>
      match self.resolveChunkLimit env input output with
      | .error e => .error e
      | .ok chunk_limit =>
        if chunk_limit = 0 then .panic .chunkLimitDivZero
        else
          runBlocks (self.processChunk env input output value)
            (applyPartition output.chunkGridShape chunk_limit)
  else .panic .assertShape

/-!  ## The asynchronous read benchmark (zarrs_benchmark_read_async.rs)

Per-chunk mode spawns one retrieval task per chunk index, throttled by
`buffer_unordered`, and folds the completions with
`while let Some(item) = stream.next().await { bytes_decoded += item.unwrap()?; }`.
The completions are modelled as a list of task results in completion order;
`?` makes the loop return the first error, and the `println!` with the
throughput figure runs only after the loop finished without error. -/

/-- The accumulation loop of `main`'s per-chunk branch (lines 112-114): add
each completed task's decoded byte length, returning the first task error
unchanged. -/
def benchLoop (bytes_decoded : Nat) :
    List (Except String Nat) → Except String Nat
  | [] => .ok bytes_decoded
  | .error e :: _ => .error e
  | .ok len :: rest => benchLoop (bytes_decoded + len) rest

/-- The observable result of the per-chunk benchmark run: either the first
task failure, or the total decoded byte count (from which the success path
derives its throughput figure). -/
def benchmarkPerChunk (taskResults : List (Except String Nat)) :
    Except String Nat :=
  benchLoop 0 taskResults

/-- Sum of the decoded byte lengths of the successful tasks. -/
def sumOkBytes (taskResults : List (Except String Nat)) : Nat :=
  (taskResults.map (fun r => match r with | .ok n => n | .error _ => 0)).sum

/-- The shape of the outer-concurrency recommendation the benchmark hands to
`calc_concurrency_outer_inner`: an exact single-value range
(`RecommendedConcurrency::new(v..v)`) or a minimum-only range
(`RecommendedConcurrency::new_minimum(v)`). -/
inductive RecommendedConcurrencySpec : Type
  | exact (v : Nat)
  | minimumOnly (v : Nat)
deriving DecidableEq, Repr

/-- The single value carried by either recommendation shape. -/
def RecommendedConcurrencySpec.value : RecommendedConcurrencySpec → Nat
  | .exact v => v
  | .minimumOnly v => v

/-- The outer recommendation built in `main` (lines 78-88): with an explicit
`--concurrent-chunks` override, the override clamped to the chunk count as an
exact range; otherwise the globally configured `chunk_concurrent_minimum`
clamped to the chunk count as a minimum-only range. -/
def outerRecommendation (numChunks : Nat) (concurrent_chunks : Option Nat)
    (chunkConcurrentMinimum : Nat) : RecommendedConcurrencySpec :=
  match concurrent_chunks with
  | some cc => .exact (min numChunks cc)
  | none => .minimumOnly (min numChunks chunkConcurrentMinimum)

/-!  ## Concrete fixtures used by witnesses and counterexamples -/

/-- An `Equal` filter configured with comparison value `5` and an explicit
chunk-limit override of `1`. -/
def eqCfg0 : Equal :=
  ⟨"5", some 1⟩

/-- An `Equal` filter configured with comparison value `5` and no chunk-limit
override. -/
def eqCfgNone : Equal :=
  ⟨"5", none⟩

/-- A concrete environment: every metadata string parses to a zero fill value
of the right byte width, bytes decode to the integer zero, and the default
memory budget is one megabyte. -/
def env0 : Env where
  fillValueFromMetadata := fun dt _ => some (List.replicate dt.size 0)
  decode := fun _ _ => .int 0
  budget := 1000000

/-- An environment whose fill-value parse always fails (a comparison value
not representable in the input's data type). -/
def envBadValue : Env where
  fillValueFromMetadata := fun _ _ => none
  decode := fun _ _ => .int 0
  budget := 1000000

/-- A concrete single-chunk array handle of the given shape and data type. -/
def arrayOf (shape : List Nat) (dt : DataType) : ArrayModel where
  shape := shape
  chunkGridShape := [1]
  dataType := dt
  chunkRepr := fun _ => ⟨shape, dt⟩
  chunkSubsetBounded := fun _ => some [(0, 1)]
  retrieve := fun _ => .ok [.int 0]
  store := fun _ _ => .ok ()

/-!  ## Helper lemmas -/

theorem supportedInputTag_iff_mem (dt : DataType) :
    supportedInputTag dt = true ↔
      dt ∈ ([.bool, .int8, .int16, .int32, .int64, .uint8, .uint16, .uint32,
        .uint64, .bfloat16, .float16, .float32, .float64] : List DataType) := by
  cases dt <;> simp [supportedInputTag]

theorem supportedOutputTag_iff_mem (dt : DataType) :
    supportedOutputTag dt = true ↔ dt ∈ ([.bool, .uint8] : List DataType) := by
  cases dt <;> simp [supportedOutputTag]

theorem is_compatible_ok_iff (self : Equal) (i o : ChunkRepresentation) :
    self.is_compatible i o = .ok () ↔
      supportedInputTag i.dataType = true ∧ supportedOutputTag o.dataType = true := by
  constructor
  · intro h
    by_cases h1 : supportedInputTag i.dataType <;>
      by_cases h2 : supportedOutputTag o.dataType <;>
      simp_all [Equal.is_compatible]
  · rintro ⟨h1, h2⟩
    simp [Equal.is_compatible, h1, h2]

/-!  ## Claim theorems -/

/-- C1.  Equal-filter transform correctness: for every input element type
(modelled by its native equality dictionary `eq`) and every comparison value
`v`, the output element at each position `p` is `1` exactly when the input
element at `p` equals `v` under `eq`, and `0` otherwise; and the IEEE float
equality used for the float types makes `NaN == NaN` false and
`-0.0 == 0.0` true. -/
theorem C1_equal_transform_correct :
    (∀ (TIn : Type) (self : Equal) (eq : TIn → TIn → Bool) (input : List TIn)
        (v : TIn) (p : Nat) (x : TIn),
      input.get? p = some x →
        ∃ out, self.apply_elements eq boolAsU8 input v = .ok out ∧
          out.get? p = some (if eq x v then 1 else 0)) ∧
    fpEq .nan .nan = false ∧
    fpEq (.num true 0) (.num false 0) = true := by
  refine ⟨?_, rfl, rfl⟩
  intro TIn self eq input v p x h
  refine ⟨_, rfl, ?_⟩
  rw [List.get?_map, h]
  simp [boolAsU8]

/-- C1 witness: the transform evaluated at a concrete float input: a NaN
element compared against NaN yields `0` (NaN is not equal to itself), and a
negative zero compared against positive zero yields `1`. -/
theorem C1_equal_transform_correct_witness :
    (∃ out, eqCfg0.apply_elements fpEq boolAsU8 [Fp.nan, Fp.num true 0] (Fp.num false 0)
        = .ok out ∧ out.get? 1 = some 1) ∧
    fpEq .nan .nan = false := by
  constructor
  · have h := C1_equal_transform_correct.1 Fp eqCfg0 fpEq
      [Fp.nan, Fp.num true 0] (Fp.num false 0) 1 (Fp.num true 0) rfl
    simpa [fpEq] using h
  · exact C1_equal_transform_correct.2.1

/-- C9.  `Equal::apply_elements` always returns `Ok`, the output has exactly
the input's length, and the element at each index is a function of the input
element at that same index alone. -/
theorem C9_apply_elements_total (self : Equal) {TIn : Type}
    (eq : TIn → TIn → Bool) (input : List TIn) (v : TIn) :
    ∃ out, self.apply_elements eq boolAsU8 input v = .ok out ∧
      out.length = input.length ∧
      ∀ p x, input.get? p = some x → out.get? p = some (boolAsU8 (eq x v)) := by
  refine ⟨_, rfl, by simp, ?_⟩
  intro p x h
  rw [List.get?_map, h]
  rfl

/-- C9 witness: at a concrete integer input the transform returns `Ok`, the
length is preserved, and position 0 holds `1` (the element equals the
comparison value). -/
theorem C9_apply_elements_total_witness :
    ∃ out, eqCfg0.apply_elements (fun a b : Int => a == b) boolAsU8 [5, 3] 5
        = .ok out ∧ out.length = 2 ∧ out.get? 0 = some 1 := by
  obtain ⟨out, h1, h2, h3⟩ :=
    C9_apply_elements_total eqCfg0 (fun a b : Int => a == b) [5, 3] 5
  exact ⟨out, h1, by simpa using h2, by simpa [boolAsU8] using h3 0 5 rfl⟩

/-- C4.  `Equal::is_compatible` succeeds exactly when the input tag is among
the thirteen supported tags and the output tag is boolean or unsigned 8-bit;
in every other case it returns an unsupported-element-type error.  (The check
is a pure function of the two type tags: it touches no array data.) -/
theorem C4_is_compatible_characterisation (self : Equal)
    (i o : ChunkRepresentation) :
    (self.is_compatible i o = .ok () ↔
      (i.dataType ∈ ([.bool, .int8, .int16, .int32, .int64, .uint8, .uint16,
          .uint32, .uint64, .bfloat16, .float16, .float32, .float64] : List DataType) ∧
       o.dataType ∈ ([.bool, .uint8] : List DataType))) ∧
    (self.is_compatible i o = .ok () ∨
      ∃ s, self.is_compatible i o = .error (.unsupportedElementType s)) := by
  constructor
  · rw [is_compatible_ok_iff, supportedInputTag_iff_mem, supportedOutputTag_iff_mem]
  · by_cases h1 : supportedInputTag i.dataType
    · by_cases h2 : supportedOutputTag o.dataType
      · exact Or.inl ((is_compatible_ok_iff self i o).mpr ⟨h1, h2⟩)
      · refine Or.inr ⟨o.dataType.name, ?_⟩
        simp [Equal.is_compatible, h1, h2]
    · refine Or.inr ⟨i.dataType.name, ?_⟩
      simp [Equal.is_compatible, h1]

/-- C4 witness: a 32-bit integer input chunk with a boolean output chunk is
compatible; a complex input chunk is rejected with an unsupported-type
error. -/
theorem C4_is_compatible_characterisation_witness :
    eqCfg0.is_compatible ⟨[2, 2], .int32⟩ ⟨[2, 2], .bool⟩ = .ok () ∧
    ∃ s, eqCfg0.is_compatible ⟨[2, 2], .complex64⟩ ⟨[2, 2], .bool⟩
        = .error (.unsupportedElementType s) := by
  constructor
  · exact (C4_is_compatible_characterisation eqCfg0 ⟨[2, 2], .int32⟩ ⟨[2, 2], .bool⟩).1.mpr
      (by constructor <;> simp)
  · rcases (C4_is_compatible_characterisation eqCfg0 ⟨[2, 2], .complex64⟩ ⟨[2, 2], .bool⟩).2 with h | h
    · exact absurd ((C4_is_compatible_characterisation eqCfg0 _ _).1.mp h).1 (by simp)
    · exact h

/-- C2 counterexample: with an output of shape `[1]` against an input of
shape `[2]`, `Equal::apply` aborts on the `assert_eq!` shape assertion — it
does not return an `IncompatibleShape` (or any) `FilterError`. -/
theorem C2_shape_mismatch_counterexample :
    Equal.apply eqCfg0 env0 (arrayOf [2] .int32) (arrayOf [1] .bool)
        = .panic .assertShape ∧
    (Equal.apply eqCfg0 env0 (arrayOf [2] .int32) (arrayOf [1] .bool)).isError
        = false ∧
    decide ((arrayOf [1] .bool).shape = (arrayOf [2] .int32).shape) = false := by
  refine ⟨?_, ?_, by decide⟩ <;> rfl

/-- C2 (amended).  When the output shape differs from the input shape,
`Equal::apply` panics on its shape assertion (it neither succeeds nor returns
a `FilterError`); whenever `apply` returns success, the output's shape equals
the input's shape. -/
theorem C2_shape_assertion (self : Equal) (env : Env)
    (input output : ArrayModel) :
    (output.shape ≠ input.shape →
      self.apply env input output = .panic .assertShape) ∧
    (∀ u, self.apply env input output = .ok u → output.shape = input.shape) := by
  constructor
  · intro h
    simp [Equal.apply, h]
  · intro u h
    by_cases hs : output.shape = input.shape
    · exact hs
    · rw [Equal.apply, if_neg hs] at h
      exact absurd h (by simp)

/-- C2 witness: at concrete arrays of shapes `[3]` and `[4]` the amended
statement applies: the shape assertion panics. -/
theorem C2_shape_assertion_witness :
    Equal.apply eqCfg0 env0 (arrayOf [3] .int32) (arrayOf [4] .bool)
        = .panic .assertShape :=
  (C2_shape_assertion eqCfg0 env0 (arrayOf [3] .int32) (arrayOf [4] .bool)).1
    (by decide)

/-- C3: evaluating the uniform-block partition built by `Equal::apply` at the
spec's scenario — a 2×2 chunk grid (4 chunks) with an explicit chunk-limit
override of 1.  `indices.len().div_ceil(chunk_limit).max(1) = 4` is handed to
rayon's `by_uniform_blocks` as the block *size*, so the code produces a
single block holding all four chunk indices (block count 1), where the claim
requires four blocks of at most one chunk index each. -/
theorem C3_partition_code_eval :
    applyPartition [2, 2] 1 = [[[0, 0], [0, 1], [1, 0], [1, 1]]] ∧
    (applyPartition [2, 2] 1).length = 1 ∧
    ((gridIndices [2, 2]).length + 1 - 1) / 1 = 4 := by
  refine ⟨?_, ?_, ?_⟩ <;> rfl

/-- C5.  Per-chunk benchmark failure propagation: if any chunk retrieval
task fails, the benchmark loop returns one of the task errors (the first in
completion order) and no byte total; it returns a total exactly when every
task succeeded, and then the total is the sum of the decoded byte lengths. -/
theorem benchLoop_error_of_mem (acc : Nat) (rs : List (Except String Nat))
    (h : ∃ e, Except.error e ∈ rs) :
    ∃ e, benchLoop acc rs = .error e ∧ Except.error e ∈ rs := by
  induction rs generalizing acc with
  | nil =>
    rcases h with ⟨e, he⟩
    simp at he
  | cons r rest ih =>
    cases r with
    | error e => exact ⟨e, rfl, by simp⟩
    | ok n =>
      rcases h with ⟨e, he⟩
      have he' : Except.error e ∈ rest := by
        rcases List.mem_cons.mp he with h1 | h1
        · exact Except.noConfusion h1
        · exact h1
      obtain ⟨e', h1, h2⟩ := ih (acc + n) ⟨e, he'⟩
      exact ⟨e', h1, List.mem_cons_of_mem _ h2⟩

theorem benchLoop_ok_iff (rs : List (Except String Nat)) (acc total : Nat) :
    benchLoop acc rs = .ok total ↔
      (∀ r ∈ rs, ∃ n, r = Except.ok n) ∧ total = acc + sumOkBytes rs := by
  induction rs generalizing acc with
  | nil => simp [benchLoop, sumOkBytes, eq_comm]
  | cons r rest ih =>
    cases r with
    | error e => simp [benchLoop]
    | ok n =>
      simp only [benchLoop]
      rw [ih]
      constructor
      · rintro ⟨h1, h2⟩
        refine ⟨?_, ?_⟩
        · intro r hr
          rcases List.mem_cons.mp hr with rfl | hr
          · exact ⟨n, rfl⟩
          · exact h1 r hr
        · simp only [sumOkBytes, List.map_cons, List.sum_cons] at h2 ⊢
          omega
      · rintro ⟨h1, h2⟩
        refine ⟨fun r hr => h1 r (List.mem_cons_of_mem _ hr), ?_⟩
        simp only [sumOkBytes, List.map_cons, List.sum_cons] at h2 ⊢
        omega

/-- C5.  Per-chunk benchmark failure propagation: if any chunk retrieval
task fails, the benchmark loop returns one of the task errors (the first in
completion order) and no byte total; it returns a total exactly when every
task succeeded, and then the total is the sum of the decoded byte lengths. -/
theorem C5_benchmark_failure_propagation (rs : List (Except String Nat)) :
    ((∃ e, Except.error e ∈ rs) →
      ∃ e, benchmarkPerChunk rs = .error e ∧ Except.error e ∈ rs) ∧
    (∀ total, benchmarkPerChunk rs = .ok total →
      (∀ r ∈ rs, ∃ n, r = .ok n) ∧ total = sumOkBytes rs) := by
  constructor
  · exact benchLoop_error_of_mem 0 rs
  · intro total h
    have h' := (benchLoop_ok_iff rs 0 total).mp h
    simpa using h'

/-- C5 witness: over three concrete task results where the second fails, the
benchmark returns one of the task errors and no byte total. -/
theorem C5_benchmark_failure_propagation_witness :
    ∃ e, benchmarkPerChunk [Except.ok 100, Except.error "decode failure", Except.ok 7]
        = .error e ∧
      Except.error e ∈ [Except.ok 100, Except.error "decode failure", Except.ok 7] :=
  (C5_benchmark_failure_propagation _).1 ⟨"decode failure", by simp⟩

/-- C6.  Chunk-limit resolution in `apply`: the explicit caller override when
one is given; otherwise the batch planner applied to `memory_per_chunk`
(input chunk byte size plus output chunk byte size) of the representative
chunk at index `(0, …, 0)` of the input and output arrays. -/
theorem C6_chunk_limit_resolution (self : Equal) (env : Env)
    (input output : ArrayModel) :
    (∀ c, self.chunk_limit = some c →
      self.resolveChunkLimit env input output = .ok c) ∧
    (self.chunk_limit = none →
      self.resolveChunkLimit env input output =
        calculate_chunk_limit env.budget
          ((input.chunkRepr (List.replicate input.dimensionality 0)).size_usize +
           (output.chunkRepr (List.replicate input.dimensionality 0)).size_usize)) := by
  constructor
  · intro c h
    unfold Equal.resolveChunkLimit
    rw [h]
  · intro h
    unfold Equal.resolveChunkLimit
    rw [h]
    rfl

/-- C6 witness: with the explicit override `1` the resolved limit is `1`;
without an override, a one-megabyte budget over a 10-byte per-chunk cost
(eight input bytes plus two output bytes) resolves to 100000. -/
theorem C6_chunk_limit_resolution_witness :
    eqCfg0.resolveChunkLimit env0 (arrayOf [2] .int32) (arrayOf [2] .bool) = .ok 1 ∧
    eqCfgNone.resolveChunkLimit env0 (arrayOf [2] .int32) (arrayOf [2] .bool)
        = .ok 100000 := by
  constructor
  · exact (C6_chunk_limit_resolution eqCfg0 env0 _ _).1 1 rfl
  · rw [(C6_chunk_limit_resolution eqCfgNone env0 _ _).2 rfl]
    rfl

/-- C7.  The benchmark's outer recommendation: an explicit
`--concurrent-chunks` override becomes an exact single-value range clamped to
the chunk count; otherwise the configured chunk-concurrency minimum becomes a
minimum-only range clamped to the chunk count; either way the recommended
value never exceeds the number of chunks. -/
theorem C7_outer_recommendation (numChunks : Nat)
    (concurrent_chunks : Option Nat) (configMin : Nat) :
    (∀ cc, concurrent_chunks = some cc →
      outerRecommendation numChunks concurrent_chunks configMin
        = .exact (min numChunks cc)) ∧
    (concurrent_chunks = none →
      outerRecommendation numChunks concurrent_chunks configMin
        = .minimumOnly (min numChunks configMin)) ∧
    (outerRecommendation numChunks concurrent_chunks configMin).value ≤ numChunks := by
  refine ⟨?_, ?_, ?_⟩
  · intro cc h
    unfold outerRecommendation
    rw [h]
  · intro h
    unfold outerRecommendation
    rw [h]
  · cases concurrent_chunks <;>
      simp [outerRecommendation, RecommendedConcurrencySpec.value]

/-- C7 witness: four chunks and an explicit override of eight yield the exact
recommendation four (clamped), which does not exceed the chunk count. -/
theorem C7_outer_recommendation_witness :
    outerRecommendation 4 (some 8) 4 = .exact 4 ∧
    (outerRecommendation 4 (some 8) 4).value ≤ 4 := by
  have h := C7_outer_recommendation 4 (some 8) 4
  exact ⟨by rw [h.1 8 rfl]; rfl, h.2.2⟩

theorem processChunk_no_dispatch (self : Equal) (env : Env)
    (input output : ArrayModel) (value : List Nat) (c : List Nat)
    (hin : supportedInputTag input.dataType = true)
    (hout : supportedOutputTag output.dataType = true) :
    self.processChunk env input output value c ≠ .panic .dispatchUnmatched := by
  intro h
  unfold Equal.processChunk at h
  split at h
  · simp at h
  · rw [if_pos hout, if_pos hin] at h
    split at h
    · simp at h
    · split at h
      · simp only [Equal.apply_elements] at h
        split at h <;> simp at h
      · simp at h

theorem processChunk_ne_fillValue (self : Equal) (env : Env)
    (input output : ArrayModel) (value : List Nat) (c : List Nat) :
    self.processChunk env input output value c ≠ .panic .fillValueUnwrap := by
  intro h
  unfold Equal.processChunk at h
  split at h
  · simp at h
  · split at h
    · split at h
      · split at h
        · simp at h
        · split at h
          · simp only [Equal.apply_elements] at h
            split at h <;> simp at h
          · simp at h
      · simp at h
    · simp at h

theorem runChunkList_ne_panic (f : List Nat → Outcome Unit) (s : PanicSite)
    (hf : ∀ c, f c ≠ .panic s) (l : List (List Nat)) :
    runChunkList f l ≠ .panic s := by
  induction l with
  | nil => simp [runChunkList]
  | cons c cs ih =>
    unfold runChunkList
    cases hc : f c with
    | ok u => exact ih
    | error e => simp
    | panic s' =>
      have hne := hf c
      rw [hc] at hne
      exact hne

theorem runBlocks_ne_panic (f : List Nat → Outcome Unit) (s : PanicSite)
    (hf : ∀ c, f c ≠ .panic s) (bs : List (List (List Nat))) :
    runBlocks f bs ≠ .panic s := by
  induction bs with
  | nil => simp [runBlocks]
  | cons b rest ih =>
    unfold runBlocks
    cases hb : runChunkList f b with
    | ok u => exact ih
    | error e => simp
    | panic s' =>
      have hne := runChunkList_ne_panic f s hf b
      rw [hb] at hne
      exact hne

/-- C8.  When `is_compatible` succeeded on chunk representations carrying
the arrays' data types, the catch-all `panic!()` arms of `apply`'s
type-dispatch match are unreachable: `apply` never aborts on an unmatched
data type. -/
theorem C8_dispatch_panic_unreachable (self : Equal) (env : Env)
    (input output : ArrayModel) (rin rout : ChunkRepresentation)
    (hrin : rin.dataType = input.dataType)
    (hrout : rout.dataType = output.dataType)
    (hcompat : self.is_compatible rin rout = .ok ()) :
    self.apply env input output ≠ .panic .dispatchUnmatched := by
  obtain ⟨hin, hout⟩ := (is_compatible_ok_iff self rin rout).mp hcompat
  rw [hrin] at hin
  rw [hrout] at hout
  intro h
  unfold Equal.apply at h
  split at h
  · split at h
    · simp at h
    · split at h
      · simp at h
      · split at h
        · simp at h
        · exact runBlocks_ne_panic _ _
            (fun c => processChunk_no_dispatch self env input output _ c hin hout) _ h
  · simp at h

/-- C8 witness: a compatible concrete configuration (32-bit integer input,
boolean output) never reaches a dispatch `panic!()`. -/
theorem C8_dispatch_panic_unreachable_witness :
    Equal.apply eqCfg0 env0 (arrayOf [2] .int32) (arrayOf [2] .bool)
        ≠ .panic .dispatchUnmatched :=
  C8_dispatch_panic_unreachable eqCfg0 env0 (arrayOf [2] .int32)
    (arrayOf [2] .bool) ⟨[2], .int32⟩ ⟨[2], .bool⟩ rfl rfl rfl

/-- C10.  With matching shapes, when the configured comparison value cannot
be converted to the input's element type, `apply` panics on the conversion
`unwrap` (it does not return a `FilterError`); when the conversion succeeds,
that panic site is unreachable — the conversion is performed once, before the
per-chunk loop, whose own panic sites do not include it. -/
theorem C10_fill_value_conversion (self : Equal) (env : Env)
    (input output : ArrayModel) (hs : output.shape = input.shape) :
    (env.fillValueFromMetadata input.dataType self.value = none →
      self.apply env input output = .panic .fillValueUnwrap) ∧
    (∀ v, env.fillValueFromMetadata input.dataType self.value = some v →
      self.apply env input output ≠ .panic .fillValueUnwrap) := by
  constructor
  · intro h
    unfold Equal.apply
    rw [if_pos hs, h]
  · intro v h hcontra
    unfold Equal.apply at hcontra
    rw [if_pos hs] at hcontra
    split at hcontra
    · simp_all
    · split at hcontra
      · simp at hcontra
      · split at hcontra
        · simp at hcontra
        · exact runBlocks_ne_panic _ _
            (fun c => processChunk_ne_fillValue self env input output _ c) _ hcontra

/-- C10 witness: with an unrepresentable comparison value (the parse returns
`None`) and matching shapes, `apply` aborts at the conversion `unwrap`. -/
theorem C10_fill_value_conversion_witness :
    Equal.apply eqCfg0 envBadValue (arrayOf [2] .int32) (arrayOf [2] .bool)
        = .panic .fillValueUnwrap :=
  (C10_fill_value_conversion eqCfg0 envBadValue (arrayOf [2] .int32)
    (arrayOf [2] .bool) rfl).1 rfl

end ZarrsTools
